import Mathlib

/-!
Shallow embedding of the per-peer lock REST client
(`cmd/lock-rest-client.go`): the health/circuit-breaker state machine
(`isHostUp`, `markHostDown`), the error canonicalization (`toLockError`),
the guarded transport wrapper (`call`), the shared operation body
(`restCall`) and the six lock operations, plus construction
(`newlockRESTClient`) and `Close`.

Modelling conventions:
* A Go `error` value is a `GoError`: its message text plus an identity
  tag (distinct Go error values may share a message text, and Go's
  `switch err { case errX: }` compares values, not texts), plus the
  verdict of the repository's `isNetworkError` predicate on it (that
  predicate is declared outside this slice, so its verdict is carried
  as a field).
* Time is a natural number of base retry units; a pending `*time.Timer`
  is the `Option Nat` deadline at which its channel fires, and the Go
  nil pointer is `none`.  Receiving from a nil timer's channel is a nil
  pointer dereference (a panic), modelled by the result `none` of
  `isHostUp` and of everything built on it.
* The transport collaborator (`restClient.Call`) is a parameter `tr`:
  `none` means it returned a response body and no error, `some e` means
  it returned the error `e`.  Each transport invocation is recorded as
  a `(method, values)` pair in the `invoked` trace of the result, so
  "no network attempt" is the empty trace.
* The lock mutex serializes health-state transitions, so an operation
  is modelled as a sequential state transformer on `ClientState`.
-/

namespace LockRest

/-- A Go `error` value: message text, an identity tag distinguishing
distinct error values with equal texts, and whether the repository's
`isNetworkError` classifies it as a network-shaped failure. -/
structure GoError where
  msg : String
  tag : Nat
  network : Bool
deriving DecidableEq, Repr

/-- `dsync.LockArgs`: the five fields of one lock request. -/
structure LockArgs where
  UID : String
  Source : String
  Resource : String
  ServerAddr : String
  ServiceEndpoint : String
deriving DecidableEq, Repr

/-- The mutable health fields of `lockRESTClient`: the `connected` flag
and the retry `timer` (`none` is Go's nil `*time.Timer`; `some d` is a
timer whose channel fires at any time `≥ d`). -/
structure ClientState where
  connected : Bool
  timer : Option Nat
deriving DecidableEq, Repr

/-- Modelled from the spec: `defaultRetryUnit`, the base retry unit, is
declared outside this slice; it is a positive tunable, and time is
measured in base units, so it is taken as `1`. -/
def defaultRetryUnit : Nat := 1

/-- Modelled from the spec: the canonical `errLockConflict` value is
declared outside this slice; the spec names its fixed, versioned error
text `lock-conflict`.  It is an `errors.New` value, not network-shaped. -/
def errLockConflict : GoError := ⟨"lock-conflict", 0, false⟩

/-- Modelled from the spec: the canonical `errLockNotExpired` value is
declared outside this slice; the spec names its fixed, versioned error
text `lock-not-expired`.  It is an `errors.New` value, not network-shaped. -/
def errLockNotExpired : GoError := ⟨"lock-not-expired", 1, false⟩

/-- The error `call` creates when the circuit is open:
`errors.New("Lock rest server node is down")`. -/
def errLockNodeDown : GoError := ⟨"Lock rest server node is down", 2, false⟩

/-- Modelled from the spec: `isNetworkError` is declared outside this
slice; it detects network-layer fault shapes (refused connection,
timeout, reset, DNS failure), a verdict carried on the error value. -/
def isNetworkError (e : GoError) : Bool := e.network

/-- `toLockError`: map a nil error to nil; map any error whose message
text equals a canonical lock error's text to that canonical value;
return every other error unmodified. -/
def toLockError : Option GoError → Option GoError
  | none => none
  | some e =>
    if e.msg = errLockConflict.msg then some errLockConflict
    else if e.msg = errLockNotExpired.msg then some errLockNotExpired
    else some e

/-- `isHostUp` at current time `now`: connected clients are up; else a
non-blocking receive on the retry timer's channel either fires (deadline
reached: become connected, drop the timer, report up) or not (report
down).  A nil timer (`none`) is dereferenced by the receive: the result
`none` models that panic. -/
def isHostUp (now : Nat) (c : ClientState) : Option (Bool × ClientState) :=
  if c.connected then some (true, c)
  else
    match c.timer with
    | none => none
    | some d =>
      if d ≤ now then some (true, { connected := true, timer := none })
      else some (false, c)

/-- `markHostDown` at current time `now`: a connected client becomes
disconnected with a fresh timer for `defaultRetryUnit * 5`; an already
disconnected client is left untouched (its timer is not reset). -/
def markHostDown (now : Nat) (c : ClientState) : ClientState :=
  if c.connected then
    { connected := false, timer := some (now + defaultRetryUnit * 5) }
  else c

/-- Result of `lockRESTClient.call`: the returned error (`none` means a
response body was returned), the client state afterwards, and the trace
of transport invocations made (each a method name with its url.Values
as flat key/value pairs). -/
structure CallResult where
  err : Option GoError
  state : ClientState
  invoked : List (String × List (String × String))
deriving DecidableEq, Repr

/-- `lockRESTClient.call`: short-circuit with a node-down error and no
transport invocation when `isHostUp` says down; otherwise invoke the
transport once; on a transport error, mark the host down when the error
is network-shaped, and return `toLockError` of the error. -/
def call (now : Nat) (c : ClientState) (method : String)
    (values : List (String × String)) (tr : Option GoError) :
    Option CallResult :=
  match isHostUp now c with
  | none => none
  | some (false, c1) => some ⟨some errLockNodeDown, c1, []⟩
  | some (true, c1) =>
    match tr with
    | none => some ⟨none, c1, [(method, values)]⟩
    | some e =>
      some ⟨toLockError (some e),
            if isNetworkError e then markHostDown now c1 else c1,
            [(method, values)]⟩

/-- Modelled from the spec: the wire field name constant `lockRESTUID`
is declared outside this slice; the spec's wire name is `requester-id`. -/
def lockRESTUID : String := "requester-id"

/-- Modelled from the spec: the wire field name constant
`lockRESTSource` is declared outside this slice; its wire name is
`source`. -/
def lockRESTSource : String := "source"

/-- Modelled from the spec: the wire field name constant
`lockRESTResource` is declared outside this slice; its wire name is
`resource`. -/
def lockRESTResource : String := "resource"

/-- Modelled from the spec: the wire field name constant
`lockRESTServerAddr` is declared outside this slice; its wire name is
`caller-address`. -/
def lockRESTServerAddr : String := "caller-address"

/-- Modelled from the spec: the wire field name constant
`lockRESTServerEndpoint` is declared outside this slice; its wire name
is `caller-service-endpoint`. -/
def lockRESTServerEndpoint : String := "caller-service-endpoint"

/-- Modelled from the spec: the remote method name for `RLock`,
declared outside this slice; the spec's stable wire string is
`acquire-shared`. -/
def lockRESTMethodRLock : String := "acquire-shared"

/-- Modelled from the spec: the remote method name for `Lock`:
`acquire-exclusive`. -/
def lockRESTMethodLock : String := "acquire-exclusive"

/-- Modelled from the spec: the remote method name for `RUnlock`:
`release-shared`. -/
def lockRESTMethodRUnlock : String := "release-shared"

/-- Modelled from the spec: the remote method name for `Unlock`:
`release-exclusive`. -/
def lockRESTMethodUnlock : String := "release-exclusive"

/-- Modelled from the spec: the remote method name for `ForceUnlock`:
`force-release`. -/
def lockRESTMethodForceUnlock : String := "force-release"

/-- Modelled from the spec: the remote method name for `Expired`:
`check-expired`. -/
def lockRESTMethodExpired : String := "check-expired"

/-- The url.Values `restCall` builds: the five `LockArgs` fields as
flat string key/value pairs. -/
def lockArgsToValues (args : LockArgs) : List (String × String) :=
  [(lockRESTUID, args.UID), (lockRESTSource, args.Source),
   (lockRESTResource, args.Resource), (lockRESTServerAddr, args.ServerAddr),
   (lockRESTServerEndpoint, args.ServiceEndpoint)]

/-- Result of `restCall` and of each lock operation: the boolean reply,
the returned error, the client state afterwards, and the trace of
transport invocations. -/
structure RestResult where
  reply : Bool
  err : Option GoError
  state : ClientState
  invoked : List (String × List (String × String))
deriving DecidableEq, Repr

/-- `lockRESTClient.restCall`: encode the `LockArgs` as url.Values,
perform `call`, then switch on the returned error value: nil yields
`(true, nil)`, the canonical `errLockConflict`/`errLockNotExpired`
values yield `(false, nil)`, anything else yields `(false, err)`. -/
def restCall (now : Nat) (c : ClientState) (method : String)
    (args : LockArgs) (tr : Option GoError) : Option RestResult :=
  match call now c method (lockArgsToValues args) tr with
  | none => none
  | some r =>
    match r.err with
    | none => some ⟨true, none, r.state, r.invoked⟩
    | some e =>
      if e = errLockConflict ∨ e = errLockNotExpired then
        some ⟨false, none, r.state, r.invoked⟩
      else
        some ⟨false, some e, r.state, r.invoked⟩

/-- `lockRESTClient.RLock`. -/
def RLock (now : Nat) (c : ClientState) (args : LockArgs)
    (tr : Option GoError) : Option RestResult :=
  restCall now c lockRESTMethodRLock args tr

/-- `lockRESTClient.Lock`. -/
def Lock (now : Nat) (c : ClientState) (args : LockArgs)
    (tr : Option GoError) : Option RestResult :=
  restCall now c lockRESTMethodLock args tr

/-- `lockRESTClient.RUnlock`. -/
def RUnlock (now : Nat) (c : ClientState) (args : LockArgs)
    (tr : Option GoError) : Option RestResult :=
  restCall now c lockRESTMethodRUnlock args tr

/-- `lockRESTClient.Unlock`. -/
def Unlock (now : Nat) (c : ClientState) (args : LockArgs)
    (tr : Option GoError) : Option RestResult :=
  restCall now c lockRESTMethodUnlock args tr

/-- `lockRESTClient.ForceUnlock`. -/
def ForceUnlock (now : Nat) (c : ClientState) (args : LockArgs)
    (tr : Option GoError) : Option RestResult :=
  restCall now c lockRESTMethodForceUnlock args tr

/-- `lockRESTClient.Expired`. -/
def Expired (now : Nat) (c : ClientState) (args : LockArgs)
    (tr : Option GoError) : Option RestResult :=
  restCall now c lockRESTMethodExpired args tr

/-- `lockRESTClient.Close`: clears the `connected` flag (and closes the
underlying rest client, which holds no health state); the timer field
is not touched. -/
def Close (c : ClientState) : ClientState := { c with connected := false }

/-- `newlockRESTClient` at construction time `now`: when
`rest.NewClient` fails (`restClientErr`), the client is still returned,
disconnected with a fresh `defaultRetryUnit * 5` timer; otherwise it is
returned connected, with the timer field left nil. -/
def newlockRESTClient (restClientErr : Bool) (now : Nat) : ClientState :=
  if restClientErr then
    { connected := false, timer := some (now + defaultRetryUnit * 5) }
  else
    { connected := true, timer := none }

/-- The type of a lock operation as exposed to callers. -/
abbrev LockOp := Nat → ClientState → LockArgs → Option GoError → Option RestResult

/-- The six lock operations, each with its remote method name. -/
def lockOps : List (String × LockOp) :=
  [(lockRESTMethodRLock, RLock), (lockRESTMethodLock, Lock),
   (lockRESTMethodRUnlock, RUnlock), (lockRESTMethodUnlock, Unlock),
   (lockRESTMethodForceUnlock, ForceUnlock), (lockRESTMethodExpired, Expired)]

/-- Every lock operation is `restCall` at its own method name. -/
theorem lockOps_eq_restCall (p : String × LockOp) (hp : p ∈ lockOps)
    (now : Nat) (c : ClientState) (args : LockArgs) (tr : Option GoError) :
    p.2 now c args tr = restCall now c p.1 args tr := by
  simp only [lockOps, List.mem_cons, List.not_mem_nil, or_false] at hp
  rcases hp with h | h | h | h | h | h <;> subst h <;> rfl

/-- How `restCall` classifies the error of the underlying `call`. -/
theorem restCall_classifies (now : Nat) (c : ClientState) (method : String)
    (args : LockArgs) (tr : Option GoError) (r : CallResult)
    (h : call now c method (lockArgsToValues args) tr = some r) :
    (r.err = none →
      restCall now c method args tr = some ⟨true, none, r.state, r.invoked⟩) ∧
    (∀ e, r.err = some e → (e = errLockConflict ∨ e = errLockNotExpired) →
      restCall now c method args tr = some ⟨false, none, r.state, r.invoked⟩) ∧
    (∀ e, r.err = some e → ¬(e = errLockConflict ∨ e = errLockNotExpired) →
      restCall now c method args tr = some ⟨false, some e, r.state, r.invoked⟩) := by
  refine ⟨?_, ?_, ?_⟩
  · intro hnone
    simp [restCall, h, hnone]
  · intro e he hcanon
    simp only [restCall, h, he]
    rw [if_pos hcanon]
  · intro e he hcanon
    simp only [restCall, h, he]
    rw [if_neg hcanon]

/-- C1: for each of the six lock operations and every `LockArgs`, the
result of the underlying `call` is mapped to the reply as follows: no
error yields `(true, nil)`; the canonical lock-conflict or
lock-not-expired error yields `(false, nil)`; any other error yields
`(false, that error)`. -/
theorem lock_ops_reply_classification (p : String × LockOp) (hp : p ∈ lockOps)
    (now : Nat) (c : ClientState) (args : LockArgs) (tr : Option GoError)
    (r : CallResult)
    (h : call now c p.1 (lockArgsToValues args) tr = some r) :
    (r.err = none →
      p.2 now c args tr = some ⟨true, none, r.state, r.invoked⟩) ∧
    (∀ e, r.err = some e → (e = errLockConflict ∨ e = errLockNotExpired) →
      p.2 now c args tr = some ⟨false, none, r.state, r.invoked⟩) ∧
    (∀ e, r.err = some e → ¬(e = errLockConflict ∨ e = errLockNotExpired) →
      p.2 now c args tr = some ⟨false, some e, r.state, r.invoked⟩) := by
  rw [lockOps_eq_restCall p hp]
  exact restCall_classifies now c p.1 args tr r h

/-- Witness for C1: `RLock` on a connected client whose transport
succeeds returns `(true, nil)`. -/
theorem lock_ops_reply_classification_witness :
    RLock 0 ⟨true, none⟩ ⟨"u", "s", "r", "a", "e"⟩ none =
      some ⟨true, none, ⟨true, none⟩,
        [(lockRESTMethodRLock, lockArgsToValues ⟨"u", "s", "r", "a", "e"⟩)]⟩ :=
  (lock_ops_reply_classification (lockRESTMethodRLock, RLock)
    (List.mem_cons_self _ _) 0 ⟨true, none⟩ ⟨"u", "s", "r", "a", "e"⟩ none
    ⟨none, ⟨true, none⟩,
      [(lockRESTMethodRLock, lockArgsToValues ⟨"u", "s", "r", "a", "e"⟩)]⟩
    rfl).1 rfl

/-- `restCall` on a disconnected client before its deadline: node-down
failure, unchanged state, no transport invocation. -/
theorem restCall_short_circuits (now d : Nat) (c : ClientState)
    (method : String) (args : LockArgs) (tr : Option GoError)
    (hdown : c.connected = false) (ht : c.timer = some d) (hlt : now < d) :
    restCall now c method args tr = some ⟨false, some errLockNodeDown, c, []⟩ := by
  have hup : isHostUp now c = some (false, c) := by
    simp [isHostUp, hdown, ht, Nat.not_le.mpr hlt]
  simp [restCall, call, hup, errLockNodeDown, errLockConflict, errLockNotExpired]

/-- C2: a lock operation on a disconnected client whose retry deadline
has not yet been reached returns `(false, node-down error)` — a
failure, not a denial — leaves the state unchanged, and performs no
transport invocation. -/
theorem down_client_short_circuits (p : String × LockOp) (hp : p ∈ lockOps)
    (now d : Nat) (c : ClientState) (args : LockArgs) (tr : Option GoError)
    (hdown : c.connected = false) (ht : c.timer = some d) (hlt : now < d) :
    p.2 now c args tr = some ⟨false, some errLockNodeDown, c, []⟩ := by
  rw [lockOps_eq_restCall p hp]
  exact restCall_short_circuits now d c p.1 args tr hdown ht hlt

/-- Witness for C2: `Lock` on a client that is down until time `5`,
called at time `0`, fails with the node-down error and an empty
invocation trace. -/
theorem down_client_short_circuits_witness :
    Lock 0 ⟨false, some 5⟩ ⟨"u", "s", "r", "a", "e"⟩ none =
      some ⟨false, some errLockNodeDown, ⟨false, some 5⟩, []⟩ :=
  down_client_short_circuits (lockRESTMethodLock, Lock)
    (by simp [lockOps]) 0 5 ⟨false, some 5⟩ ⟨"u", "s", "r", "a", "e"⟩ none
    rfl rfl (by decide)

/-- C3: for each lock operation on a connected client, a transport
error classified as a network failure (network-shaped and not one of
the protocol error texts, which the taxonomy recognizes first) moves
the client to disconnected with a fresh deadline of now plus
`defaultRetryUnit * 5`, and the operation returns `(false, error)`;
and `markHostDown` on an already disconnected client leaves the state
— in particular the existing deadline — unchanged. -/
theorem network_error_trips_breaker (p : String × LockOp) (hp : p ∈ lockOps)
    (now : Nat) (c : ClientState) (args : LockArgs) (e : GoError)
    (hup : c.connected = true) (hnet : e.network = true)
    (hc1 : e.msg ≠ errLockConflict.msg) (hc2 : e.msg ≠ errLockNotExpired.msg) :
    p.2 now c args (some e) =
      some ⟨false, some e, ⟨false, some (now + defaultRetryUnit * 5)⟩,
        [(p.1, lockArgsToValues args)]⟩ ∧
    ∀ (t : Nat) (c1 : ClientState), c1.connected = false →
      markHostDown t c1 = c1 := by
  constructor
  · rw [lockOps_eq_restCall p hp]
    have htl : toLockError (some e) = some e := by
      simp [toLockError, hc1, hc2]
    have hne : ¬(e = errLockConflict ∨ e = errLockNotExpired) := by
      rintro (rfl | rfl)
      · exact hc1 rfl
      · exact hc2 rfl
    simp only [restCall, call, isHostUp, hup, if_true, isNetworkError, hnet,
      markHostDown, htl]
    rw [if_neg hne]
  · intro t c1 h1
    simp [markHostDown, h1]

/-- Witness for C3: `RUnlock` on a connected client whose transport
reports a network-shaped failure trips the breaker with deadline
`7 + defaultRetryUnit * 5`; and `markHostDown` at time `9` leaves a
client already down with deadline `3` untouched. -/
theorem network_error_trips_breaker_witness :
    RUnlock 7 ⟨true, none⟩ ⟨"u", "s", "r", "a", "e"⟩
        (some ⟨"connection refused", 9, true⟩) =
      some ⟨false, some ⟨"connection refused", 9, true⟩,
        ⟨false, some (7 + defaultRetryUnit * 5)⟩,
        [(lockRESTMethodRUnlock, lockArgsToValues ⟨"u", "s", "r", "a", "e"⟩)]⟩ ∧
    markHostDown 9 ⟨false, some 3⟩ = ⟨false, some 3⟩ := by
  have h := network_error_trips_breaker (lockRESTMethodRUnlock, RUnlock)
    (by simp [lockOps]) 7 ⟨true, none⟩ ⟨"u", "s", "r", "a", "e"⟩
    ⟨"connection refused", 9, true⟩ rfl rfl (by decide) (by decide)
  exact ⟨h.1, h.2 9 ⟨false, some 3⟩ rfl⟩

/-- `call` on a client whose health check passes performs exactly one
transport invocation; the resulting state is the post-check state,
marked down when the transport error is network-shaped. -/
theorem call_up (now : Nat) (c c1 : ClientState) (method : String)
    (values : List (String × String)) (tr : Option GoError)
    (hup : isHostUp now c = some (true, c1)) :
    ∃ r : CallResult, call now c method values tr = some r ∧
      r.invoked = [(method, values)] ∧
      r.state = (match tr with
        | none => c1
        | some e => if isNetworkError e then markHostDown now c1 else c1) := by
  cases tr with
  | none =>
    refine ⟨⟨none, c1, [(method, values)]⟩, ?_, rfl, rfl⟩
    simp [call, hup]
  | some e =>
    refine ⟨⟨toLockError (some e),
      if isNetworkError e then markHostDown now c1 else c1,
      [(method, values)]⟩, ?_, rfl, rfl⟩
    simp [call, hup]

/-- `restCall` forwards the state and invocation trace of the
underlying `call` unchanged, whatever the reply classification. -/
theorem restCall_frame (now : Nat) (c : ClientState) (method : String)
    (args : LockArgs) (tr : Option GoError) (r : CallResult)
    (h : call now c method (lockArgsToValues args) tr = some r) :
    ∃ res : RestResult, restCall now c method args tr = some res ∧
      res.state = r.state ∧ res.invoked = r.invoked := by
  obtain ⟨h1, h2, h3⟩ := restCall_classifies now c method args tr r h
  cases he : r.err with
  | none => exact ⟨_, h1 he, rfl, rfl⟩
  | some e =>
    by_cases hc : e = errLockConflict ∨ e = errLockNotExpired
    · exact ⟨_, h2 e he hc, rfl, rfl⟩
    · exact ⟨_, h3 e he hc, rfl, rfl⟩

/-- C4: for a disconnected client with retry deadline `d`, a lock
operation strictly before `d` short-circuits — no transport
invocation, state unchanged — while the first operation at or after
`d` observes the fired timer, becomes connected with the timer
consumed (set to nil, so no other call can observe the same firing),
and performs exactly one transport invocation. -/
theorem backoff_elapsed_next_call_retries (p : String × LockOp)
    (hp : p ∈ lockOps) (now d : Nat) (c : ClientState) (args : LockArgs)
    (tr : Option GoError)
    (hdown : c.connected = false) (ht : c.timer = some d) :
    (now < d →
      p.2 now c args tr = some ⟨false, some errLockNodeDown, c, []⟩) ∧
    (d ≤ now →
      isHostUp now c = some (true, ⟨true, none⟩) ∧
      ∃ res : RestResult, p.2 now c args tr = some res ∧
        res.invoked = [(p.1, lockArgsToValues args)]) := by
  constructor
  · intro hlt
    rw [lockOps_eq_restCall p hp]
    exact restCall_short_circuits now d c p.1 args tr hdown ht hlt
  · intro hle
    have hup : isHostUp now c = some (true, ⟨true, none⟩) := by
      simp [isHostUp, hdown, ht, hle]
    refine ⟨hup, ?_⟩
    rw [lockOps_eq_restCall p hp]
    obtain ⟨r, hr, hinv, -⟩ :=
      call_up now c ⟨true, none⟩ p.1 (lockArgsToValues args) tr hup
    obtain ⟨res, hres, -, hresinv⟩ :=
      restCall_frame now c p.1 args tr r hr
    exact ⟨res, hres, hresinv.trans hinv⟩

/-- Witness for C4: a client down until time `5`: `Unlock` at time `4`
short-circuits; at time `5` the health check recovers and `Unlock`
performs one transport invocation. -/
theorem backoff_elapsed_next_call_retries_witness :
    (Unlock 4 ⟨false, some 5⟩ ⟨"u", "s", "r", "a", "e"⟩ none =
      some ⟨false, some errLockNodeDown, ⟨false, some 5⟩, []⟩) ∧
    (isHostUp 5 ⟨false, some 5⟩ = some (true, ⟨true, none⟩) ∧
      ∃ res : RestResult,
        Unlock 5 ⟨false, some 5⟩ ⟨"u", "s", "r", "a", "e"⟩ none = some res ∧
        res.invoked =
          [(lockRESTMethodUnlock, lockArgsToValues ⟨"u", "s", "r", "a", "e"⟩)]) := by
  constructor
  · exact (backoff_elapsed_next_call_retries (lockRESTMethodUnlock, Unlock)
      (by simp [lockOps]) 4 5 ⟨false, some 5⟩ ⟨"u", "s", "r", "a", "e"⟩ none
      rfl rfl).1 (by decide)
  · exact (backoff_elapsed_next_call_retries (lockRESTMethodUnlock, Unlock)
      (by simp [lockOps]) 5 5 ⟨false, some 5⟩ ⟨"u", "s", "r", "a", "e"⟩ none
      rfl rfl).2 (by decide)

/-- Counterexample to C5: the client built after a transport
construction failure at time `0` is disconnected, but its retry
deadline is `defaultRetryUnit * 5`, a full backoff window in the
future rather than immediate: the health check at construction time
still reports it down, so a call made immediately does not retry. -/
theorem construction_failure_deadline_not_immediate :
    newlockRESTClient true 0 = ⟨false, some (defaultRetryUnit * 5)⟩ ∧
    isHostUp 0 (newlockRESTClient true 0) =
      some (false, ⟨false, some (defaultRetryUnit * 5)⟩) ∧
    defaultRetryUnit * 5 ≠ 0 := by
  decide

/-- C5 (amended): if the transport channel cannot be constructed,
construction still succeeds and returns a client that starts
disconnected, with a retry deadline one backoff window
(`defaultRetryUnit * 5`) after construction time — the same window
used after a network failure. -/
theorem construction_failure_starts_down (now : Nat) :
    newlockRESTClient true now =
      ⟨false, some (now + defaultRetryUnit * 5)⟩ ∧
    (newlockRESTClient true now).connected = false := by
  constructor <;> simp [newlockRESTClient]

/-- Counterexample to C6: a client built at time `0` with a transport
construction failure carries a pending retry timer; calling `Close`
leaves that timer pending, and once its deadline passes, `RLock` on
the closed client invokes the transport again and returns the client
to the connected state. -/
theorem close_not_permanent :
    Close (newlockRESTClient true 0) = ⟨false, some (defaultRetryUnit * 5)⟩ ∧
    RLock (defaultRetryUnit * 5) (Close (newlockRESTClient true 0))
        ⟨"u", "s", "r", "a", "e"⟩ none =
      some ⟨true, none, ⟨true, none⟩,
        [(lockRESTMethodRLock, lockArgsToValues ⟨"u", "s", "r", "a", "e"⟩)]⟩ := by
  decide

/-- C6 (amended): `Close` clears the `connected` flag, making the
client immediately down, but leaves the timer field untouched, so the
down state is not permanent: before a pending deadline operations
short-circuit, but once the deadline passes the next health check
returns the closed client to the connected state (and with no pending
timer the health check instead dereferences the nil timer). Permanence
relies on the caller not reusing a closed client. -/
theorem close_marks_down (c : ClientState) (now d : Nat) (args : LockArgs)
    (tr : Option GoError) :
    (Close c).connected = false ∧
    (Close c).timer = c.timer ∧
    (c.timer = some d → now < d →
      RLock now (Close c) args tr =
        some ⟨false, some errLockNodeDown, Close c, []⟩) ∧
    (c.timer = some d → d ≤ now →
      isHostUp now (Close c) = some (true, ⟨true, none⟩)) ∧
    (c.timer = none → isHostUp now (Close c) = none) := by
  refine ⟨rfl, rfl, ?_, ?_, ?_⟩
  · intro ht hlt
    exact restCall_short_circuits now d (Close c) lockRESTMethodRLock args tr
      rfl ht hlt
  · intro ht hle
    simp [isHostUp, Close, ht, hle]
  · intro ht
    simp [isHostUp, Close, ht]

/-- Witness for C6 (amended): closing a client that is down until time
`5` keeps its timer; at time `7` the health check reconnects it, and
at time `0` `RLock` short-circuits. -/
theorem close_marks_down_witness :
    isHostUp 7 (Close ⟨false, some 5⟩) = some (true, ⟨true, none⟩) ∧
    RLock 0 (Close ⟨false, some 5⟩) ⟨"u", "s", "r", "a", "e"⟩ none =
      some ⟨false, some errLockNodeDown, Close ⟨false, some 5⟩, []⟩ :=
  ⟨(close_marks_down ⟨false, some 5⟩ 7 5 ⟨"u", "s", "r", "a", "e"⟩ none).2.2.2.1
      rfl (by decide),
   (close_marks_down ⟨false, some 5⟩ 0 5 ⟨"u", "s", "r", "a", "e"⟩ none).2.2.1
      rfl (by decide)⟩

/-- Counterexample to C7: a client down until time `5`, called at time
`5` with a transport error that is not network-shaped: the health
state after the operation is connected with no timer, while before the
operation it was disconnected with a pending timer — the lazy recovery
performed by the health check changed it, though the error handling
did not. -/
theorem opaque_error_state_not_framed :
    RLock 5 ⟨false, some 5⟩ ⟨"u", "s", "r", "a", "e"⟩
        (some ⟨"context canceled", 9, false⟩) =
      some ⟨false, some ⟨"context canceled", 9, false⟩, ⟨true, none⟩,
        [(lockRESTMethodRLock, lockArgsToValues ⟨"u", "s", "r", "a", "e"⟩)]⟩ ∧
    (⟨true, none⟩ : ClientState) ≠ (⟨false, some 5⟩ : ClientState) := by
  decide

/-- C7 (amended): for a transport error that is not network-shaped
(lock-conflict, lease-not-expired, caller cancellation, opaque), the
error handling leaves the health state unchanged: the state after the
operation equals the state produced by the initial health check; in
particular for a client that was connected before the operation, the
connected flag and timer are exactly as before. -/
theorem non_network_error_preserves_health (p : String × LockOp)
    (hp : p ∈ lockOps) (now : Nat) (c c1 : ClientState) (args : LockArgs)
    (e : GoError) (hok : isHostUp now c = some (true, c1))
    (hnet : e.network = false) :
    (∃ res : RestResult, p.2 now c args (some e) = some res ∧
      res.state = c1) ∧
    (c.connected = true → c1 = c) := by
  constructor
  · rw [lockOps_eq_restCall p hp]
    obtain ⟨r, hr, -, hstate⟩ :=
      call_up now c c1 p.1 (lockArgsToValues args) (some e) hok
    obtain ⟨res, hres, hress, -⟩ := restCall_frame now c p.1 args (some e) r hr
    refine ⟨res, hres, ?_⟩
    rw [hress, hstate]
    simp [isNetworkError, hnet]
  · intro hcon
    rw [isHostUp, if_pos hcon] at hok
    have h2 : (true, c) = (true, c1) := Option.some.inj hok
    exact congrArg Prod.snd h2.symm

/-- Witness for C7 (amended): `ForceUnlock` on a connected client whose
transport reports a non-network cancellation leaves the state
connected with no timer, exactly as before. -/
theorem non_network_error_preserves_health_witness :
    ∃ res : RestResult,
      ForceUnlock 0 ⟨true, none⟩ ⟨"u", "s", "r", "a", "e"⟩
          (some ⟨"context canceled", 4, false⟩) = some res ∧
      res.state = ⟨true, none⟩ :=
  (non_network_error_preserves_health (lockRESTMethodForceUnlock, ForceUnlock)
    (by simp [lockOps]) 0 ⟨true, none⟩ ⟨true, none⟩ ⟨"u", "s", "r", "a", "e"⟩
    ⟨"context canceled", 4, false⟩ rfl rfl).1

/-- C8: `toLockError` maps nil to nil; maps any error whose message
text equals the lock-conflict (resp. lock-not-expired) text to the
corresponding canonical error value, whatever its identity tag or
network classification; and returns every other error unmodified. -/
theorem toLockError_text_canonicalization (e : GoError) :
    toLockError none = none ∧
    (e.msg = errLockConflict.msg →
      toLockError (some e) = some errLockConflict) ∧
    (e.msg = errLockNotExpired.msg →
      toLockError (some e) = some errLockNotExpired) ∧
    (e.msg ≠ errLockConflict.msg → e.msg ≠ errLockNotExpired.msg →
      toLockError (some e) = some e) := by
  refine ⟨rfl, ?_, ?_, ?_⟩
  · intro h
    simp [toLockError, h]
  · intro h
    have hne : e.msg ≠ errLockConflict.msg := by
      rw [h]; decide
    simp only [toLockError]
    rw [if_neg hne, if_pos h]
  · intro h1 h2
    simp [toLockError, h1, h2]

/-- Witness for C8: an error sharing only the lock-conflict text (with
a different tag and a network classification) is mapped to the
canonical value, and an opaque error passes through unmodified. -/
theorem toLockError_text_canonicalization_witness :
    toLockError (some ⟨"lock-conflict", 42, true⟩) = some errLockConflict ∧
    toLockError (some ⟨"boom", 7, false⟩) = some ⟨"boom", 7, false⟩ :=
  ⟨(toLockError_text_canonicalization ⟨"lock-conflict", 42, true⟩).2.1 rfl,
   (toLockError_text_canonicalization ⟨"boom", 7, false⟩).2.2.2
      (by decide) (by decide)⟩

/-- C9: when the health check passes, each of the six lock operations
performs exactly one transport invocation, whose arguments are exactly
the five `LockArgs` fields as flat string key/value pairs under the
wire field names, tagged with the operation's own method name; and the
six method names are pairwise distinct. -/
theorem ops_single_invocation_distinct_methods (p : String × LockOp)
    (hp : p ∈ lockOps) (now : Nat) (c c1 : ClientState) (args : LockArgs)
    (tr : Option GoError) (hok : isHostUp now c = some (true, c1)) :
    (∃ res : RestResult, p.2 now c args tr = some res ∧
      res.invoked = [(p.1,
        [(lockRESTUID, args.UID), (lockRESTSource, args.Source),
         (lockRESTResource, args.Resource),
         (lockRESTServerAddr, args.ServerAddr),
         (lockRESTServerEndpoint, args.ServiceEndpoint)])]) ∧
    (lockOps.map Prod.fst).Nodup := by
  constructor
  · rw [lockOps_eq_restCall p hp]
    obtain ⟨r, hr, hinv, -⟩ :=
      call_up now c c1 p.1 (lockArgsToValues args) tr hok
    obtain ⟨res, hres, -, hresinv⟩ := restCall_frame now c p.1 args tr r hr
    exact ⟨res, hres, by rw [hresinv, hinv]; rfl⟩
  · decide

/-- Witness for C9: `Expired` on a connected client invokes the
transport once with method `check-expired` and the five wire fields. -/
theorem ops_single_invocation_distinct_methods_witness :
    (∃ res : RestResult,
      Expired 0 ⟨true, none⟩ ⟨"u", "s", "r", "a", "e"⟩ none = some res ∧
      res.invoked = [(lockRESTMethodExpired,
        [(lockRESTUID, "u"), (lockRESTSource, "s"), (lockRESTResource, "r"),
         (lockRESTServerAddr, "a"), (lockRESTServerEndpoint, "e")])]) ∧
    (lockOps.map Prod.fst).Nodup :=
  ops_single_invocation_distinct_methods (lockRESTMethodExpired, Expired)
    (by simp [lockOps]) 0 ⟨true, none⟩ ⟨true, none⟩ ⟨"u", "s", "r", "a", "e"⟩
    none rfl

/-- C10: a successfully constructed client has a nil timer; after
`Close` it is disconnected with the timer still nil, and any later
lock operation's health check dereferences that nil timer (the `none`
result modelling the panic) instead of returning an answer. -/
theorem closed_client_nil_timer_panics (t now : Nat) (args : LockArgs)
    (tr : Option GoError) :
    newlockRESTClient false t = ⟨true, none⟩ ∧
    Close (newlockRESTClient false t) = ⟨false, none⟩ ∧
    isHostUp now (Close (newlockRESTClient false t)) = none ∧
    RLock now (Close (newlockRESTClient false t)) args tr = none := by
  exact ⟨rfl, rfl, rfl, rfl⟩

end LockRest
